import Mathlib

/-!
Verification of the authenticity layer of the maddy mail server:
the DNSSEC-aware resolver (`internal/dns/dnssec.go`) and the DKIM
verification check (`verify_dkim` module).

The Go code is shallowly embedded: the network is modelled as a pure
behaviour function per configured server, the external DKIM library
(`go-msgauth/dkim`) as a list of per-signature verification outcomes
handed to `CheckBody`, and `nil`-pointer dereference as an explicit
`nilDeref` outcome.
-/

set_option maxRecDepth 4000

namespace Maddy

/-! ## DNS model (from `internal/dns/dnssec.go`) -/

/-- DNS RCODE constants, numeric values as in the `miekg/dns` library. -/
def RcodeSuccess : Nat := 0

def RcodeFormatError : Nat := 1

def RcodeServerFailure : Nat := 2

def RcodeNameError : Nat := 3

def RcodeNotImplemented : Nat := 4

def RcodeRefused : Nat := 5

/-- Query types used by the resolver's public lookups. -/
inductive QType where
  | PTR | A | AAAA | MX | TXT | TLSA
  deriving DecidableEq

/-- One DNS question: name being looked up plus the record type.
The Go code also sets EDNS0 and the request-side AD bit on every query;
those are constant across all lookups and carry no information in the
model. -/
structure Query where
  name : String
  qtype : QType
  deriving DecidableEq

/-- Resource records appearing in an answer section.  `other` stands for
any record of a type different from the one the lookup filters for
(the Go code skips such records with a failed type assertion). -/
inductive RR where
  | ptr (name : String)
  | a (ip : String)
  | aaaa (ip : String)
  | mx (pref : Nat) (host : String)
  | txt (strs : List String)
  | tlsa (payload : Nat)
  | other
  deriving DecidableEq

/-- A wire response: `resp.Rcode`, `resp.AuthenticatedData` and
`resp.Answer` — the three fields of `*dns.Msg` the resolver reads. -/
structure Msg where
  rcode : Nat
  ad : Bool
  answers : List RR
  deriving DecidableEq

/-- Transport-level failures of `Client.ExchangeContext`: either the
caller's context was cancelled, or some other network error occurred. -/
inductive XPortErr where
  | cancelled
  | netErr (id : Nat)
  deriving DecidableEq

/-- RCodeError is returned by ExtResolver when the RCODE in response is
not NOERROR (struct `RCodeError` in the source). -/
structure RCodeError where
  Name : String
  Code : Nat
  deriving DecidableEq

/-- Errors a lookup can return: a transport error from the exchange, an
`RCodeError`, or a parse error from the reverse-address / TLSA-name
construction that fails before any query is sent. -/
inductive DNSError where
  | transport (e : XPortErr)
  | rcode (e : RCodeError)
  | parseErr
  deriving DecidableEq

/-- the method `RCodeError.Temporary`: true exactly for SERVFAIL. -/
def RCodeError.Temporary (err : RCodeError) : Bool :=
  err.Code == RcodeServerFailure

/-- function `IsNotFound`: for an `RCodeError` it tests RCODE = NXDOMAIN.
Transport and parse errors are not `*net.DNSError` values carrying
`IsNotFound`, so they map to false. -/
def IsNotFound : DNSError → Bool
  | .rcode e => e.Code == RcodeNameError
  | _ => false

/-- what one configured server does with one query: either the exchange
fails at transport level or a wire response comes back. -/
inductive ServerBehavior where
  | transportError (e : XPortErr)
  | response (m : Msg)

/-- One configured server.  `loopback` abstracts `isLoopback srv`
(`net.ParseIP` + `IP.IsLoopback` over the server's address string, both
from the Go standard library); `behave` is the server's pure response
behaviour per query. -/
structure Server where
  loopback : Bool
  behave : Query → ServerBehavior

/-- ExtResolver: the configured server list (`Cfg.Servers`).  Port and
timeout are connection plumbing with no observable effect in the model. -/
structure ExtResolver where
  servers : List Server

/-- the error recorded for one server inside the `exchange` loop:
`some` transport error, `some` RCodeError for a non-success RCODE,
`none` when the server answered with a success RCODE. -/
def serverError (q : Query) (s : Server) : Option DNSError :=
  match s.behave q with
  | .transportError e => some (DNSError.transport e)
  | .response raw =>
      if raw.rcode ≠ RcodeSuccess then some (DNSError.rcode ⟨q.name, raw.rcode⟩)
      else none

/-- the response value left in `resp` after a failed iteration:
`nil` after a transport error, the raw response after an RCODE error. -/
def serverResp (q : Query) (s : Server) : Option Msg :=
  match s.behave q with
  | .transportError _ => none
  | .response raw => some raw

/-- the AD-trust masking applied in the success branch of `exchange`:
AD flags from non-local resolvers are disregarded. -/
def maskAD (s : Server) (raw : Msg) : Msg :=
  if s.loopback then raw else { raw with ad := false }

/-- the body of `ExtResolver.exchange`: iterate the servers, carrying
the `resp` and `lastErr` variables of the Go loop. -/
def exchangeLoop (q : Query) : List Server → Option Msg → Option DNSError →
    Option Msg × Option DNSError
  | [], resp, lastErr => (resp, lastErr)
  | s :: rest, _, _ =>
      match s.behave q with
      | .transportError e => exchangeLoop q rest none (some (DNSError.transport e))
      | .response raw =>
          if raw.rcode ≠ RcodeSuccess then
            exchangeLoop q rest (some raw) (some (DNSError.rcode ⟨q.name, raw.rcode⟩))
          else
            (some (maskAD s raw), none)

/-- method `ExtResolver.exchange`: `resp` and `lastErr` start as `nil`. -/
def exchange (e : ExtResolver) (q : Query) : Option Msg × Option DNSError :=
  exchangeLoop q e.servers none none

/-! ### Public lookups -/

/-- outcome of one public lookup.  The Go functions return a triple
`(ad bool, values, err error)`; `err` and `ok` map onto that triple
(`err e` stands for `(false, nil, e)`).  `nilDeref` marks the nil-pointer
dereference that happens when `exchange` hands back a `nil` response
together with a `nil` error and the lookup reads
`resp.AuthenticatedData`. -/
inductive LookupOutcome (α : Type) where
  | nilDeref
  | err (e : DNSError)
  | ok (ad : Bool) (vals : List α)
  deriving DecidableEq

/-- the `ad` component of the Go triple for an outcome. -/
def LookupOutcome.adOf : LookupOutcome α → Bool
  | .ok ad _ => ad
  | _ => false

/-- the value-list component of the Go triple for an outcome. -/
def LookupOutcome.valsOf : LookupOutcome α → List α
  | .ok _ vs => vs
  | _ => []

/-- `dns.Fqdn` from the external library: append the root dot when
missing. -/
def fqdn (s : String) : String :=
  if s.endsWith "." then s else s ++ "."

/-- Modelled from the spec: `dns.ReverseAddr` (external miekg/dns
library, not in src) builds the reverse-lookup name for an address and
fails on a malformed subject — "name-resolution parse errors (e.g.
malformed reverse-lookup subject) fail immediately without querying".
Failure is modelled on the empty subject; the exact name string is
irrelevant to the claims. -/
def reverseAddr (addr : String) : Option String :=
  if addr = "" then none else some (addr ++ ".in-addr.arpa.")

/-- Modelled from the spec: `dns.TLSAName` (external miekg/dns library,
not in src) builds the TLSA owner name from domain, service and network,
failing on malformed input (modelled on an empty service). -/
def tlsaName (domain service network : String) : Option String :=
  if service = "" then none
  else some ("_" ++ service ++ "._" ++ network ++ "." ++ domain)

/-- the PTR filter of `AuthLookupAddr`'s answer loop. -/
def projPTR : RR → Option String
  | .ptr n => some n
  | _ => none

/-- the MX filter of `AuthLookupMX`'s answer loop. -/
def projMX : RR → Option (Nat × String)
  | .mx pref host => some (pref, host)
  | _ => none

/-- the TXT filter of `AuthLookupTXT`'s answer loop, including the
`strings.Join(txtRR.Txt, "")` concatenation. -/
def projTXT : RR → Option String
  | .txt xs => some (String.join xs)
  | _ => none

/-- the AAAA filter of `AuthLookupIPAddr`'s first answer loop. -/
def projAAAA : RR → Option String
  | .aaaa ip => some ip
  | _ => none

/-- the A filter of `AuthLookupIPAddr`'s second answer loop. -/
def projA : RR → Option String
  | .a ip => some ip
  | _ => none

/-- the TLSA filter of `AuthLookupTLSA`'s answer loop. -/
def projTLSA : RR → Option Nat
  | .tlsa payload => some payload
  | _ => none

/-- method `AuthLookupAddr`: reverse the address (failing before any
query on a parse error), exchange a PTR question, then read
`resp.AuthenticatedData` and filter PTR records out of the answers. -/
def AuthLookupAddr (e : ExtResolver) (addr : String) : LookupOutcome String :=
  match reverseAddr addr with
  | none => .err DNSError.parseErr
  | some revAddr =>
      match exchange e ⟨revAddr, QType.PTR⟩ with
      | (_, some er) => .err er
      | (none, none) => .nilDeref
      | (some resp, none) => .ok resp.ad (resp.answers.filterMap projPTR)

/-- method `AuthLookupMX`. -/
def AuthLookupMX (e : ExtResolver) (name : String) : LookupOutcome (Nat × String) :=
  match exchange e ⟨fqdn name, QType.MX⟩ with
  | (_, some er) => .err er
  | (none, none) => .nilDeref
  | (some resp, none) => .ok resp.ad (resp.answers.filterMap projMX)

/-- method `AuthLookupTXT`. -/
def AuthLookupTXT (e : ExtResolver) (name : String) : LookupOutcome String :=
  match exchange e ⟨fqdn name, QType.TXT⟩ with
  | (_, some er) => .err er
  | (none, none) => .nilDeref
  | (some resp, none) => .ok resp.ad (resp.answers.filterMap projTXT)

/-- method `AuthLookupIPAddr`: an AAAA query first, then an A query;
the A-leg AD flag is ANDed onto the AAAA-leg flag and the A answers are
appended after the AAAA answers. -/
def AuthLookupIPAddr (e : ExtResolver) (host : String) : LookupOutcome String :=
  match exchange e ⟨fqdn host, QType.AAAA⟩ with
  | (_, some er) => .err er
  | (none, none) => .nilDeref
  | (some resp6, none) =>
      match exchange e ⟨fqdn host, QType.A⟩ with
      | (_, some er) => .err er
      | (none, none) => .nilDeref
      | (some resp4, none) =>
          .ok (resp6.ad && resp4.ad)
            (resp6.answers.filterMap projAAAA ++ resp4.answers.filterMap projA)

/-- method `AuthLookupTLSA`: construct the TLSA name (failing before any
query on a parse error), then query and filter TLSA records. -/
def AuthLookupTLSA (e : ExtResolver) (service network domain : String) :
    LookupOutcome Nat :=
  match tlsaName domain service network with
  | none => .err DNSError.parseErr
  | some name =>
      match exchange e ⟨fqdn name, QType.TLSA⟩ with
      | (_, some er) => .err er
      | (none, none) => .nilDeref
      | (some resp, none) => .ok resp.ad (resp.answers.filterMap projTLSA)

/-! ## DKIM model (from the `verify_dkim` module) -/

/-- `authres.ResultValue` constants used by the check. -/
inductive DKIMValue where
  | pass | fail | permerror | temperror | none
  deriving DecidableEq

/-- `authres.DKIMResult`: one authentication result record. -/
structure DKIMResult where
  Value : DKIMValue
  Reason : String
  Domain : String
  Identifier : String
  deriving DecidableEq

/-- errors of the external `go-msgauth/dkim` library: `permFail` and
`tempFail` are the two distinguished error types, everything else is a
generic error.  `msg` is the `Error()` string (which the library
prefixes with "dkim: "). -/
inductive DKIMErr where
  | permfail (msg : String)
  | tempfail (msg : String)
  | other (msg : String)
  deriving DecidableEq

/-- the `Error()` string of a library error. -/
def DKIMErr.msg : DKIMErr → String
  | .permfail m => m
  | .tempfail m => m
  | .other m => m

/-- `dkim.IsPermFail` applied to a possibly-nil error. -/
def IsPermFail : Option DKIMErr → Bool
  | some (.permfail _) => true
  | _ => false

/-- `dkim.IsTempFail` applied to a possibly-nil error. -/
def IsTempFail : Option DKIMErr → Bool
  | some (.tempfail _) => true
  | _ => false

/-- `dkim.Verification`: the per-signature outcome fields the check
reads.  `BodyLength` is negative when the signature declares no
body-length restriction. -/
structure Verification where
  Domain : String
  Identifier : String
  HeaderKeys : List String
  BodyLength : Int
  Err : Option DKIMErr
  deriving DecidableEq

/-- `exterrors.SMTPError`: the fields the check sets (`Err` is attached
only in the dead 421 branch and is dropped here). -/
structure SMTPError where
  Code : Nat
  EnhancedCode : Nat × Nat × Nat
  Message : String
  CheckName : String
  deriving DecidableEq

/-- the `Reason` of a check result: either a structured `SMTPError` or
the `exterrors.WithTemporary(exterrors.WithFields(err, ...), true)`
wrapper used for local I/O and verifier-machinery errors, identified by
its `smtp_msg` field. -/
inductive CheckReason where
  | smtp (e : SMTPError)
  | tempWrapped (smtpMsg : String)
  deriving DecidableEq

/-- `module.CheckResult`: the fields the check writes. -/
structure CheckResult where
  Reject : Bool
  Quarantine : Bool
  Reason : Option CheckReason
  AuthResult : List DKIMResult
  deriving DecidableEq

/-- `check.FailAction`: the two fields the check reads
(`d.c.noSigAction.Reject`, `.Quarantine`). -/
structure FailAction where
  Reject : Bool
  Quarantine : Bool
  deriving DecidableEq

/-- Modelled from the spec: `check.FailAction.Apply` lives in
`internal/check`, which is not in src.  Per the spec, applying an action
"either leaves it as an informational record (ignore), marks it for
rejection at the protocol boundary with an associated SMTP-style
enhanced status code, or marks it for quarantine". -/
def FailAction.Apply (a : FailAction) (res : CheckResult) : CheckResult :=
  if a.Reject || a.Quarantine then
    { res with Reject := a.Reject, Quarantine := a.Quarantine }
  else
    res

/-- the `Check` module configuration: `requiredFields` is stored in
canonicalized form by `Init`. -/
structure Check where
  requiredFields : List String
  allowBodySubset : Bool
  brokenSigAction : FailAction
  noSigAction : FailAction
  failOpen : Bool

/-- `textproto.Header` as `CheckBody` observes it: only
`header.Has("DKIM-Signature")` feeds a decision (the serialized header
bytes go to the external verifier, whose outcome is a `CheckBody`
parameter). -/
structure Header where
  hasDKIMSignature : Bool

/-- one step of `nettextproto.CanonicalMIMEHeaderKey` (Go standard
library): uppercase the first letter of each dash-separated word,
lowercase the rest.  Modelled for token-valid keys. -/
def canonChars : Bool → List Char → List Char
  | _, [] => []
  | up, c :: cs =>
      if c = '-' then c :: canonChars true cs
      else (if up then c.toUpper else c.toLower) :: canonChars false cs

/-- `nettextproto.CanonicalMIMEHeaderKey`. -/
def canonicalKey (s : String) : String :=
  String.mk (canonChars true s.data)

/-- `strings.TrimPrefix(errMsg, "dkim: ")` from the reason computation,
written over the character list so that it evaluates by kernel
reduction. -/
def stripDkim (s : String) : String :=
  if List.isPrefixOf "dkim: ".data s.data then String.mk (s.data.drop 6) else s

/-- the `for _, verif := range verifications` loop of `CheckBody`
followed by the final `goodSigs` decision.  `err` is the variable
holding `dkim.Verify`'s own error, which is `nil` by the time the loop
runs but is nevertheless what the code passes to `dkim.IsPermFail` and
`dkim.IsTempFail`.  `goodSigs` and `acc` carry the loop state. -/
def checkLoop (c : Check) (err : Option DKIMErr) :
    List Verification → Bool → List DKIMResult → CheckResult
  | [], goodSigs, acc =>
      if !goodSigs then
        c.brokenSigAction.Apply
          { Reject := false, Quarantine := false,
            Reason := some (.smtp ⟨550, (5, 7, 20), "No passing DKIM signatures", "verify_dkim"⟩),
            AuthResult := acc }
      else
        { Reject := false, Quarantine := false, Reason := none, AuthResult := acc }
  | verif :: rest, goodSigs, acc =>
      match verif.Err with
      | some sigErr =>
          let reason := stripDkim sigErr.msg
          let val : DKIMValue :=
            if IsPermFail err then DKIMValue.permerror else DKIMValue.fail
          if IsTempFail err then
            if !c.failOpen then
              { Reject := true, Quarantine := false,
                Reason := some (.smtp ⟨421, (4, 7, 20),
                  "Temporary error during DKIM verification", "verify_dkim"⟩),
                AuthResult := [] }
            else
              checkLoop c err rest goodSigs
                (acc ++ [⟨DKIMValue.temperror, reason, verif.Domain, verif.Identifier⟩])
          else
            checkLoop c err rest goodSigs
              (acc ++ [⟨val, reason, verif.Domain, verif.Identifier⟩])
      | none =>
          let signedFields := verif.HeaderKeys.map canonicalKey
          let fieldsMissing := c.requiredFields.any (fun f => !(signedFields.contains f))
          let val1 : DKIMValue :=
            if fieldsMissing then DKIMValue.permerror else DKIMValue.pass
          let reason1 : String :=
            if fieldsMissing then "some header fields are not signed" else ""
          let val2 : DKIMValue :=
            if 0 ≤ verif.BodyLength ∧ c.allowBodySubset = false then DKIMValue.permerror
            else val1
          let reason2 : String :=
            if 0 ≤ verif.BodyLength ∧ c.allowBodySubset = false then "body limit it used"
            else reason1
          checkLoop c err rest true
            (acc ++ [⟨val2, reason2, verif.Domain, verif.Identifier⟩])

/-- method `dkimCheckState.CheckBody`.  `bodyOpen` is the result of
`body.Open()` and `verifyRes` the result of the external `dkim.Verify`
over the serialized header and the opened body; both are parameters
because body and verifier are external collaborators. -/
def CheckBody (c : Check) (header : Header) (bodyOpen : Except String Unit)
    (verifyRes : Except DKIMErr (List Verification)) : CheckResult :=
  if !header.hasDKIMSignature then
    c.noSigAction.Apply
      { Reject := false, Quarantine := false,
        Reason := some (.smtp ⟨550, (5, 7, 20), "No DKIM signatures", "verify_dkim"⟩),
        AuthResult := [⟨DKIMValue.none, "", "", ""⟩] }
  else
    match bodyOpen with
    | .error _ =>
        { Reject := true, Quarantine := false,
          Reason := some (.tempWrapped "Internal I/O error"), AuthResult := [] }
    | .ok _ =>
        match verifyRes with
        | .error _ =>
            { Reject := true, Quarantine := false,
              Reason := some (.tempWrapped "Internal error during policy check"),
              AuthResult := [] }
        | .ok verifications => checkLoop c none verifications false []

/-! ## Helper lemmas about the exchange loop -/

/-- every iteration of the exchange loop overwrites `resp` and
`lastErr`, so a non-empty loop does not depend on their incoming
values. -/
lemma exchangeLoop_indep (q : Query) (s : Server) (rest : List Server)
    (r0 r1 : Option Msg) (e0 e1 : Option DNSError) :
    exchangeLoop q (s :: rest) r0 e0 = exchangeLoop q (s :: rest) r1 e1 := by
  cases h : s.behave q with
  | transportError e => simp only [exchangeLoop, h]
  | response raw => simp only [exchangeLoop, h]

/-- a failing server at the head of a non-empty tail is skipped:
the loop continues as if started on the tail. -/
lemma exchangeLoop_skip (q : Query) (s : Server) (rest : List Server)
    (hfail : serverError q s ≠ none) (hne : rest ≠ [])
    (r0 r1 : Option Msg) (e0 e1 : Option DNSError) :
    exchangeLoop q (s :: rest) r0 e0 = exchangeLoop q rest r1 e1 := by
  obtain ⟨b, l, rfl⟩ := List.exists_cons_of_ne_nil hne
  cases h : s.behave q with
  | transportError e => simp only [exchangeLoop, h]
  | response raw =>
      by_cases hrc : raw.rcode = RcodeSuccess
      · exact absurd (by simp [serverError, h, hrc]) hfail
      · simp only [exchangeLoop, h, if_pos hrc]

/-- a prefix of failing servers before a non-empty tail is skipped
entirely. -/
lemma exchangeLoop_pre_fail (q : Query) (pre rest : List Server)
    (hne : rest ≠ []) (hfail : ∀ s ∈ pre, serverError q s ≠ none)
    (r0 r1 : Option Msg) (e0 e1 : Option DNSError) :
    exchangeLoop q (pre ++ rest) r0 e0 = exchangeLoop q rest r1 e1 := by
  induction pre with
  | nil =>
      obtain ⟨b, l, rfl⟩ := List.exists_cons_of_ne_nil hne
      exact exchangeLoop_indep q b l _ _ _ _
  | cons a pre ih =>
      rw [List.cons_append,
        exchangeLoop_skip q a (pre ++ rest) (hfail a (by simp))
          (by simp [hne]) r0 r0 e0 e0]
      exact ih (fun s hs => hfail s (by simp [hs]))

/-- when every server of a non-empty list fails, the loop ends on the
last server's recorded response and error. -/
lemma exchangeLoop_exhaust (q : Query) :
    ∀ (l : List Server), l ≠ [] → (∀ s ∈ l, serverError q s ≠ none) →
      ∀ (r0 : Option Msg) (e0 : Option DNSError),
        ∃ slast, l.getLast? = some slast ∧
          exchangeLoop q l r0 e0 = (serverResp q slast, serverError q slast) := by
  intro l
  induction l with
  | nil => intro h; exact absurd rfl h
  | cons a l ih =>
      intro _ hfail r0 e0
      cases l with
      | nil =>
          refine ⟨a, rfl, ?_⟩
          have ha := hfail a (by simp)
          cases h : a.behave q with
          | transportError e => simp [exchangeLoop, serverResp, serverError, h]
          | response raw =>
              by_cases hrc : raw.rcode = RcodeSuccess
              · exact absurd (by simp [serverError, h, hrc]) ha
              · simp [exchangeLoop, serverResp, serverError, h, hrc]
      | cons b t =>
          obtain ⟨slast, h1, h2⟩ :=
            ih (by simp) (fun s hs => hfail s (by simp [hs])) r0 e0
          refine ⟨slast, ?_, ?_⟩
          · rw [List.getLast?_cons_cons]; exact h1
          · rw [exchangeLoop_skip q a (b :: t) (hfail a (by simp)) (by simp)
              r0 r0 e0 e0]
            exact h2

/-- a non-empty loop that ends without an error carries a response. -/
lemma exchangeLoop_ok_some (q : Query) :
    ∀ (l : List Server) (r0 : Option Msg) (e0 : Option DNSError), l ≠ [] →
      (exchangeLoop q l r0 e0).2 = none →
      ∃ m, (exchangeLoop q l r0 e0).1 = some m := by
  intro l
  induction l with
  | nil => intro r0 e0 h; exact absurd rfl h
  | cons a l ih =>
      intro r0 e0 _ h2
      cases hb : a.behave q with
      | transportError e =>
          cases l with
          | nil => simp [exchangeLoop, hb] at h2
          | cons b t =>
              have heq : exchangeLoop q (a :: b :: t) r0 e0
                  = exchangeLoop q (b :: t) none (some (DNSError.transport e)) := by
                simp only [exchangeLoop, hb]
              rw [heq] at h2 ⊢
              exact ih none _ (by simp) h2
      | response raw =>
          by_cases hrc : raw.rcode = RcodeSuccess
          · exact ⟨maskAD a raw, by simp [exchangeLoop, hb, hrc]⟩
          · cases l with
            | nil => simp [exchangeLoop, hb, hrc] at h2
            | cons b t =>
                have heq : exchangeLoop q (a :: b :: t) r0 e0
                    = exchangeLoop q (b :: t) (some raw)
                        (some (DNSError.rcode ⟨q.name, raw.rcode⟩)) := by
                  simp only [exchangeLoop, hb, if_pos hrc]
                rw [heq] at h2 ⊢
                exact ih (some raw) _ (by simp) h2

/-- with a non-empty server list, `exchange` never returns the
`(nil, nil)` pair. -/
lemma exchange_ne_nilnil (e : ExtResolver) (q : Query)
    (hne : e.servers ≠ []) : exchange e q ≠ (none, none) := by
  intro h
  obtain ⟨m, hm⟩ := exchangeLoop_ok_some q e.servers none none hne
    (by rw [show exchangeLoop q e.servers none none = exchange e q from rfl, h])
  rw [show exchangeLoop q e.servers none none = exchange e q from rfl, h] at hm
  exact Option.noConfusion hm

/-! ## Concrete fixtures used by witnesses and counterexamples -/

/-- a successful wire response whose AD flag is set. -/
def msgOK : Msg := ⟨RcodeSuccess, true, [RR.a "192.0.2.1", RR.other]⟩

/-- a server whose exchange fails with the context-cancellation error. -/
def srvCancel : Server := ⟨false, fun _ => .transportError .cancelled⟩

/-- an unreachable server (generic network error). -/
def srvDown : Server := ⟨false, fun _ => .transportError (.netErr 1)⟩

/-- a non-loopback server answering successfully with AD set. -/
def srvRemote : Server := ⟨false, fun _ => .response msgOK⟩

/-- a loopback server answering successfully with AD set. -/
def srvLocal : Server := ⟨true, fun _ => .response msgOK⟩

/-- a server answering with the SERVFAIL RCODE. -/
def srvServFail : Server := ⟨true, fun _ => .response ⟨RcodeServerFailure, false, []⟩⟩

/-- a server answering AAAA and A queries with distinct responses. -/
def srvDual : Server :=
  ⟨true, fun q =>
    match q.qtype with
    | QType.AAAA => .response ⟨RcodeSuccess, true, [RR.aaaa "2001:db8::1", RR.other]⟩
    | QType.A => .response ⟨RcodeSuccess, false, [RR.a "192.0.2.5"]⟩
    | _ => .transportError (.netErr 9)⟩

/-- a sample query. -/
def q0 : Query := ⟨"example.org.", QType.A⟩

/-! ## Claim theorems: resolver -/

/-- C1: for every resolver lookup whose responding server is not a
loopback address, the reported AuthenticatedData flag is false no matter
what the wire response carried; for a loopback responding server the
reported flag equals the flag of the wire response.  The responding
server is the first server `s` (after a prefix `pre` of failing servers)
whose exchange succeeds with a success RCODE. -/
theorem exchange_ad_trust_rule (q : Query) (pre : List Server) (s : Server)
    (post : List Server) (raw : Msg)
    (hpre : ∀ s' ∈ pre, serverError q s' ≠ none)
    (hs : s.behave q = .response raw) (hrc : raw.rcode = RcodeSuccess) :
    ∃ m, exchange ⟨pre ++ s :: post⟩ q = (some m, none)
      ∧ (s.loopback = false → m.ad = false)
      ∧ (s.loopback = true → m.ad = raw.ad) := by
  refine ⟨maskAD s raw, ?_, ?_, ?_⟩
  · show exchangeLoop q (pre ++ s :: post) none none = _
    rw [exchangeLoop_pre_fail q pre (s :: post) (by simp) hpre none none none none]
    simp [exchangeLoop, hs, hrc]
  · intro h; simp [maskAD, h]
  · intro h; simp [maskAD, h]

/-- witness for C1: a dead first server, then a non-loopback responder
whose wire AD flag is set; the reported flag is false. -/
theorem exchange_ad_trust_rule_witness :
    ∃ m, exchange ⟨[srvDown] ++ srvRemote :: []⟩ q0 = (some m, none)
      ∧ (srvRemote.loopback = false → m.ad = false)
      ∧ (srvRemote.loopback = true → m.ad = msgOK.ad) :=
  exchange_ad_trust_rule q0 [srvDown] srvRemote [] msgOK
    (by intro s' h; rw [List.mem_singleton] at h; subst h; decide) rfl rfl

/-- C4: the lookup iterates the server list in order: failing servers
(transport errors and non-success RCODEs alike) are skipped, the first
server with a success RCODE ends the loop with a `nil` error — so any
earlier recorded error is discarded and the result equals a
single-server lookup against that server — and when every server fails,
the returned error is the one recorded for the last server (an
`RCodeError` for the queried name when that server answered with a
non-success RCODE). -/
theorem exchange_failover_order (q : Query) (pre : List Server) (s : Server)
    (post : List Server) (raw : Msg)
    (hne : pre ≠ [])
    (hpre : ∀ s' ∈ pre, serverError q s' ≠ none)
    (hs : s.behave q = .response raw) (hrc : raw.rcode = RcodeSuccess) :
    exchange ⟨pre ++ s :: post⟩ q = exchange ⟨[s]⟩ q
    ∧ exchange ⟨[s]⟩ q = (some (maskAD s raw), none)
    ∧ ∃ slast, pre.getLast? = some slast
        ∧ (exchange ⟨pre⟩ q).2 = serverError q slast := by
  have hsingle : exchange ⟨[s]⟩ q = (some (maskAD s raw), none) := by
    show exchangeLoop q [s] none none = _
    simp [exchangeLoop, hs, hrc]
  refine ⟨?_, hsingle, ?_⟩
  · show exchangeLoop q (pre ++ s :: post) none none = _
    rw [exchangeLoop_pre_fail q pre (s :: post) (by simp) hpre none none none none]
    rw [show exchangeLoop q (s :: post) none none
        = (some (maskAD s raw), none) from by simp [exchangeLoop, hs, hrc]]
    exact hsingle.symm
  · obtain ⟨slast, h1, h2⟩ := exchangeLoop_exhaust q pre hne hpre none none
    exact ⟨slast, h1, by
      show (exchangeLoop q pre none none).2 = _
      rw [h2]⟩

/-- witness for C4: a SERVFAIL server, then a successful loopback
server, then a dead server that is never reached. -/
theorem exchange_failover_order_witness :
    exchange ⟨[srvServFail] ++ srvLocal :: [srvDown]⟩ q0 = exchange ⟨[srvLocal]⟩ q0
    ∧ exchange ⟨[srvLocal]⟩ q0 = (some (maskAD srvLocal msgOK), none)
    ∧ ∃ slast, [srvServFail].getLast? = some slast
        ∧ (exchange ⟨[srvServFail]⟩ q0).2 = serverError q0 slast :=
  exchange_failover_order q0 [srvServFail] srvLocal [srvDown] msgOK
    (by simp) (by intro s' h; rw [List.mem_singleton] at h; subst h; decide) rfl rfl

/-- C8 counterexample: the claim says a cancellation error aborts the
lookup without falling through to the next configured server.  In the
code the cancellation error is just another non-nil error from
`ExchangeContext` and the loop does `continue`: with servers
`[srvCancel, srvLocal]`, where the first exchange fails with the
cancellation error, the lookup returns the second server's successful
response with a `nil` error instead of propagating the cancellation. -/
theorem exchange_cancel_counterexample :
    exchange ⟨[srvCancel, srvLocal]⟩ q0 = (some msgOK, none) := by
  decide

/-- C8 amended: a cancellation error is treated exactly like any other
transport error — the loop falls through to the remaining servers — and
because every exchange attempted after the context is cancelled also
fails with the cancellation error, the lookup returns the cancellation
error as the last error once the server list is exhausted. -/
theorem exchange_cancel_failover (q : Query) (s : Server) (rest : List Server)
    (h1 : s.behave q = .transportError .cancelled)
    (h2 : rest ≠ [])
    (h3 : ∀ s' ∈ rest, s'.behave q = .transportError .cancelled) :
    exchange ⟨s :: rest⟩ q = exchange ⟨rest⟩ q
    ∧ exchange ⟨s :: rest⟩ q = (none, some (DNSError.transport .cancelled)) := by
  have hfail : serverError q s ≠ none := by simp [serverError, h1]
  have e1 : exchange ⟨s :: rest⟩ q = exchange ⟨rest⟩ q := by
    show exchangeLoop q (s :: rest) none none = exchangeLoop q rest none none
    exact exchangeLoop_skip q s rest hfail h2 none none none none
  refine ⟨e1, ?_⟩
  rw [e1]
  obtain ⟨slast, hl, hres⟩ := exchangeLoop_exhaust q rest h2
    (fun s' hs' => by simp [serverError, h3 s' hs']) none none
  obtain ⟨h9, heq⟩ := List.mem_getLast?_eq_getLast (show slast ∈ rest.getLast? from hl)
  have hmem : slast ∈ rest := heq ▸ List.getLast_mem h9
  show exchangeLoop q rest none none = _
  rw [hres]
  simp [serverResp, serverError, h3 slast hmem]

/-- witness for C8 amended: two servers, both hitting the cancellation
error. -/
theorem exchange_cancel_failover_witness :
    exchange ⟨srvCancel :: [srvCancel]⟩ q0 = exchange ⟨[srvCancel]⟩ q0
    ∧ exchange ⟨srvCancel :: [srvCancel]⟩ q0
        = (none, some (DNSError.transport .cancelled)) :=
  exchange_cancel_failover q0 srvCancel [srvCancel] rfl (by simp)
    (by intro s' h; rw [List.mem_singleton] at h; subst h; rfl)

/-- C9: `RCodeError.Temporary` is true exactly for the SERVFAIL RCODE
and `IsNotFound` holds of an `RCodeError` exactly for the NXDOMAIN
RCODE; any other RCODE is neither temporary nor "not found". -/
theorem rcode_classification (n : String) (c : Nat) :
    (RCodeError.Temporary ⟨n, c⟩ = true ↔ c = RcodeServerFailure)
    ∧ (IsNotFound (DNSError.rcode ⟨n, c⟩) = true ↔ c = RcodeNameError) := by
  constructor <;> simp [RCodeError.Temporary, IsNotFound]

/-- witness for C9 at the SERVFAIL and NXDOMAIN codes. -/
theorem rcode_classification_witness :
    RCodeError.Temporary ⟨"example.org.", 2⟩ = true
    ∧ IsNotFound (DNSError.rcode ⟨"example.org.", 3⟩) = true :=
  ⟨(rcode_classification "example.org." 2).1.mpr rfl,
   (rcode_classification "example.org." 3).2.mpr rfl⟩

/-- C5: `AuthLookupIPAddr` queries AAAA then A; if a leg's exchange
fails, the call returns that leg's error with a false AD flag and no
answers; when both legs succeed, the reported AD flag is the conjunction
of the two legs' flags and the answer list is the AAAA answers followed
by the A answers. -/
theorem authLookupIPAddr_combined (e : ExtResolver) (host : String) :
    (∀ er r, exchange e ⟨fqdn host, QType.AAAA⟩ = (r, some er) →
        AuthLookupIPAddr e host = .err er
        ∧ (AuthLookupIPAddr e host).adOf = false
        ∧ (AuthLookupIPAddr e host).valsOf = [])
    ∧ (∀ m6 er r, exchange e ⟨fqdn host, QType.AAAA⟩ = (some m6, none) →
        exchange e ⟨fqdn host, QType.A⟩ = (r, some er) →
        AuthLookupIPAddr e host = .err er
        ∧ (AuthLookupIPAddr e host).adOf = false
        ∧ (AuthLookupIPAddr e host).valsOf = [])
    ∧ (∀ m6 m4, exchange e ⟨fqdn host, QType.AAAA⟩ = (some m6, none) →
        exchange e ⟨fqdn host, QType.A⟩ = (some m4, none) →
        AuthLookupIPAddr e host
          = .ok (m6.ad && m4.ad)
              (m6.answers.filterMap projAAAA ++ m4.answers.filterMap projA)) := by
  refine ⟨?_, ?_, ?_⟩
  · intro er r h6
    cases r <;>
      simp [AuthLookupIPAddr, h6, LookupOutcome.adOf, LookupOutcome.valsOf]
  · intro m6 er r h6 h4
    cases r <;>
      simp [AuthLookupIPAddr, h6, h4, LookupOutcome.adOf, LookupOutcome.valsOf]
  · intro m6 m4 h6 h4
    simp [AuthLookupIPAddr, h6, h4]

/-- witness for C5: a dual-behaviour loopback server (AAAA leg has AD
set, A leg does not) and an unreachable server. -/
theorem authLookupIPAddr_combined_witness :
    AuthLookupIPAddr ⟨[srvDual]⟩ "example.org"
      = .ok false ["2001:db8::1", "192.0.2.5"]
    ∧ AuthLookupIPAddr ⟨[srvDown]⟩ "example.org"
      = .err (DNSError.transport (.netErr 1)) :=
  ⟨(authLookupIPAddr_combined ⟨[srvDual]⟩ "example.org").2.2
      ⟨RcodeSuccess, true, [RR.aaaa "2001:db8::1", RR.other]⟩
      ⟨RcodeSuccess, false, [RR.a "192.0.2.5"]⟩ rfl rfl,
   ((authLookupIPAddr_combined ⟨[srvDown]⟩ "example.org").1
      (DNSError.transport (.netErr 1)) none rfl).1⟩

/-- C10: with an empty configured server list, `exchange` returns a
`nil` response together with a `nil` error, and every public lookup then
dereferences that `nil` response (`resp.AuthenticatedData`); with a
non-empty server list the dereference is unreachable in every lookup. -/
theorem lookups_nil_safety :
    (∀ q : Query, exchange ⟨[]⟩ q = (none, none))
    ∧ (∀ addr rev, reverseAddr addr = some rev →
        AuthLookupAddr ⟨[]⟩ addr = .nilDeref)
    ∧ (∀ name, AuthLookupMX ⟨[]⟩ name = .nilDeref)
    ∧ (∀ name, AuthLookupTXT ⟨[]⟩ name = .nilDeref)
    ∧ (∀ host, AuthLookupIPAddr ⟨[]⟩ host = .nilDeref)
    ∧ (∀ service network domain name, tlsaName domain service network = some name →
        AuthLookupTLSA ⟨[]⟩ service network domain = .nilDeref)
    ∧ ∀ e : ExtResolver, e.servers ≠ [] →
        (∀ addr, AuthLookupAddr e addr ≠ .nilDeref)
        ∧ (∀ name, AuthLookupMX e name ≠ .nilDeref)
        ∧ (∀ name, AuthLookupTXT e name ≠ .nilDeref)
        ∧ (∀ host, AuthLookupIPAddr e host ≠ .nilDeref)
        ∧ (∀ service network domain,
            AuthLookupTLSA e service network domain ≠ .nilDeref) := by
  refine ⟨fun _ => rfl, ?_, ?_, ?_, ?_, ?_, ?_⟩
  · intro addr rev h
    simp [AuthLookupAddr, h, exchange, exchangeLoop]
  · intro name; simp [AuthLookupMX, exchange, exchangeLoop]
  · intro name; simp [AuthLookupTXT, exchange, exchangeLoop]
  · intro host; simp [AuthLookupIPAddr, exchange, exchangeLoop]
  · intro service network domain name h
    simp [AuthLookupTLSA, h, exchange, exchangeLoop]
  · intro e hne
    refine ⟨?_, ?_, ?_, ?_, ?_⟩
    · intro addr
      rcases hr : reverseAddr addr with _ | rev
      · simp [AuthLookupAddr, hr]
      · rcases h : exchange e ⟨rev, QType.PTR⟩ with ⟨r, er⟩
        cases er with
        | some er => cases r <;> simp [AuthLookupAddr, hr, h]
        | none =>
            cases r with
            | none => exact absurd h (exchange_ne_nilnil e _ hne)
            | some resp => simp [AuthLookupAddr, hr, h]
    · intro name
      rcases h : exchange e ⟨fqdn name, QType.MX⟩ with ⟨r, er⟩
      cases er with
      | some er => cases r <;> simp [AuthLookupMX, h]
      | none =>
          cases r with
          | none => exact absurd h (exchange_ne_nilnil e _ hne)
          | some resp => simp [AuthLookupMX, h]
    · intro name
      rcases h : exchange e ⟨fqdn name, QType.TXT⟩ with ⟨r, er⟩
      cases er with
      | some er => cases r <;> simp [AuthLookupTXT, h]
      | none =>
          cases r with
          | none => exact absurd h (exchange_ne_nilnil e _ hne)
          | some resp => simp [AuthLookupTXT, h]
    · intro host
      rcases h6 : exchange e ⟨fqdn host, QType.AAAA⟩ with ⟨r6, er6⟩
      cases er6 with
      | some er => cases r6 <;> simp [AuthLookupIPAddr, h6]
      | none =>
          cases r6 with
          | none => exact absurd h6 (exchange_ne_nilnil e _ hne)
          | some resp6 =>
              rcases h4 : exchange e ⟨fqdn host, QType.A⟩ with ⟨r4, er4⟩
              cases er4 with
              | some er => cases r4 <;> simp [AuthLookupIPAddr, h6, h4]
              | none =>
                  cases r4 with
                  | none => exact absurd h4 (exchange_ne_nilnil e _ hne)
                  | some resp4 => simp [AuthLookupIPAddr, h6, h4]
    · intro service network domain
      rcases ht : tlsaName domain service network with _ | name
      · simp [AuthLookupTLSA, ht]
      · rcases h : exchange e ⟨fqdn name, QType.TLSA⟩ with ⟨r, er⟩
        cases er with
        | some er => cases r <;> simp [AuthLookupTLSA, ht, h]
        | none =>
            cases r with
            | none => exact absurd h (exchange_ne_nilnil e _ hne)
            | some resp => simp [AuthLookupTLSA, ht, h]

/-- witness for C10: concrete lookups against the empty and a singleton
server list. -/
theorem lookups_nil_safety_witness :
    AuthLookupAddr ⟨[]⟩ "192.0.2.1" = .nilDeref
    ∧ AuthLookupTLSA ⟨[]⟩ "smtp" "tcp" "example.org" = .nilDeref
    ∧ AuthLookupMX ⟨[srvLocal]⟩ "example.org" ≠ .nilDeref :=
  ⟨lookups_nil_safety.2.1 "192.0.2.1" _ rfl,
   lookups_nil_safety.2.2.2.2.2.1 "smtp" "tcp" "example.org" _ rfl,
   (lookups_nil_safety.2.2.2.2.2.2 ⟨[srvLocal]⟩ (List.cons_ne_nil _ _)).2.1
     "example.org"⟩

/-! ## Claim theorems: DKIM check -/

/-- a rejecting fail action. -/
def actReject : FailAction := ⟨true, false⟩

/-- a strict configuration: required field `From` (canonical form),
body-subset signatures disallowed, fail-open disabled, reject actions. -/
def cfgStrict : Check := ⟨["From"], false, actReject, actReject, false⟩

/-- a per-signature outcome whose error is the library's temporary
failure (e.g. the signer's key could not be fetched). -/
def vTempFail : Verification :=
  ⟨"example.org", "a@example.org", [], -1, some (.tempfail "dkim: key unavailable")⟩

/-- a cryptographically valid signature that does not cover the
required `From` field. -/
def vMissingField : Verification := ⟨"example.org", "", ["Subject"], -1, none⟩

/-- a cryptographically valid signature covering `From` but declaring a
body-length restriction. -/
def vBodyLimit : Verification := ⟨"example.org", "x", ["From"], 5, none⟩

/-- C6: a message without any DKIM-Signature header yields exactly one
authentication result record with value `none`, and the verdict is the
configured no-signature action applied to a result whose reason is
"No DKIM signatures" with SMTP code 550 and enhanced code 5.7.20; the
result does not depend on the body source or on the verifier, so no
verification is attempted and the body is not read. -/
theorem checkBody_no_signature (c : Check) (b b' : Except String Unit)
    (v v' : Except DKIMErr (List Verification)) :
    CheckBody c ⟨false⟩ b v
      = c.noSigAction.Apply
          { Reject := false, Quarantine := false,
            Reason := some (.smtp ⟨550, (5, 7, 20), "No DKIM signatures", "verify_dkim"⟩),
            AuthResult := [⟨DKIMValue.none, "", "", ""⟩] }
    ∧ (CheckBody c ⟨false⟩ b v).AuthResult = [⟨DKIMValue.none, "", "", ""⟩]
    ∧ CheckBody c ⟨false⟩ b v = CheckBody c ⟨false⟩ b' v' := by
  refine ⟨rfl, ?_, rfl⟩
  show (c.noSigAction.Apply _).AuthResult = _
  unfold FailAction.Apply
  split <;> rfl

/-- C3 counterexample: the claim says only a signature passing both
policy gates sets the good-signature flag, so a message whose single
valid signature misses a required signed field should end in the
broken-signature action (here: reject) with aggregate reason "No
passing DKIM signatures".  In the code `goodSigs` is set before the
gates run, so the very same message is returned without any rejection
and without an aggregate reason. -/
theorem checkBody_gate_counterexample :
    CheckBody cfgStrict ⟨true⟩ (.ok ()) (.ok [vMissingField])
      = ⟨false, false, none,
         [⟨DKIMValue.permerror, "some header fields are not signed",
           "example.org", ""⟩]⟩ := by
  decide

/-- C3 amended: any signature that verifies without a cryptographic
error sets the per-invocation good-signature flag, before the policy
gates run; consequently, for a message with exactly one valid signature
that misses a required signed field (and passes the body-length gate),
`CheckBody` yields one `permerror` record with reason "some header
fields are not signed" and returns it with no rejection and no
aggregate reason — the broken-signature action is not applied. -/
theorem checkBody_goodsigs_before_gates (c : Check) (verif : Verification)
    (herr : verif.Err = none)
    (hmiss : c.requiredFields.any
        (fun f => !((verif.HeaderKeys.map canonicalKey).contains f)) = true)
    (hbody : ¬(0 ≤ verif.BodyLength ∧ c.allowBodySubset = false)) :
    CheckBody c ⟨true⟩ (.ok ()) (.ok [verif])
      = ⟨false, false, none,
         [⟨DKIMValue.permerror, "some header fields are not signed",
           verif.Domain, verif.Identifier⟩]⟩ := by
  show checkLoop c none [verif] false [] = _
  simp only [checkLoop, herr, hmiss, hbody, if_true, ite_true, ite_false,
    if_false, Bool.not_true, List.nil_append, eq_self_iff_true]
  rfl

/-- witness for C3 amended at the concrete strict configuration. -/
theorem checkBody_goodsigs_before_gates_witness :
    CheckBody cfgStrict ⟨true⟩ (.ok ()) (.ok [vMissingField])
      = ⟨false, false, none,
         [⟨DKIMValue.permerror, "some header fields are not signed",
           vMissingField.Domain, vMissingField.Identifier⟩]⟩ :=
  checkBody_goodsigs_before_gates cfgStrict vMissingField rfl (by decide)
    (by decide)

/-- C7 evaluation: a valid signature declaring a body-length
restriction under a configuration disallowing body subsets is
downgraded to `permerror`, but the reason string the code produces is
"body limit it used", not the "body limit is used" stated by the
claim. -/
theorem checkBody_body_limit_eval :
    CheckBody cfgStrict ⟨true⟩ (.ok ()) (.ok [vBodyLimit])
      = ⟨false, false, none,
         [⟨DKIMValue.permerror, "body limit it used", "example.org", "x"⟩]⟩ := by
  decide

/-- C2 evaluation: one signature with a temporary verifier failure
under fail-closed policy.  The claim (and the spec) say this aborts the
whole check with a 421 temporary reject; the code instead passes the
`dkim.Verify`-level error variable — `nil` once the loop runs — to
`dkim.IsPermFail` and `dkim.IsTempFail` instead of `verif.Err`, so the
record is classified plain `fail` and the final verdict is the
broken-signature action with the 550 "No passing DKIM signatures"
reason; the 421 branch is dead code. -/
theorem checkBody_tempfail_eval :
    CheckBody cfgStrict ⟨true⟩ (.ok ()) (.ok [vTempFail])
      = ⟨true, false,
         some (.smtp ⟨550, (5, 7, 20), "No passing DKIM signatures", "verify_dkim"⟩),
         [⟨DKIMValue.fail, "key unavailable", "example.org", "a@example.org"⟩]⟩ := by
  decide

end Maddy
